import Mathlib

/-!
Shallow embedding of the `python-cli-starter` repository:
`src/internals/decorator.py` (command registry and the registration
decorator), `src/cli.py` (parser construction, dispatch, exit-code
mapping) and the three command modules under `src/commands/`.

Python dictionaries are embedded as association lists with
insert-or-overwrite-in-place semantics (matching CPython dict insertion
order).  Handlers are embedded as functions from the parsed argument
namespace to an outcome that is either a normal return (with the lines
printed and the returned integer), a `KeyboardInterrupt`, or another
raised exception (with the lines printed before the raise and the
exception message).  The `argparse` subset that this program exercises
(subparsers with `dest="command"` and `required=True`, positional
arguments with a `type` coercion, value-taking options with `required`,
and `action="store_true"` toggle options) is embedded operationally in
`parseArgs`/`parseLoop` below.
-/

/-- Runtime values a parsed argument can take: Python `str`, `int`,
`bool` (for `store_true` toggles) and `None` (the `argparse` default for
an unseen optional value flag). -/
inductive Value where
  | str (s : String)
  | int (n : Int)
  | bool (b : Bool)
  | pyNone
deriving DecidableEq, Repr

/-- The coercion types used by this program's argument specs
(the `type` entries `str` and `int` in the command modules). -/
inductive PyType where
  | str
  | int
deriving DecidableEq, Repr

/-- The `kwargs` configuration bag of one argument spec, with the keys the
program uses: `help`, `type`, `required`, `action` (see
`src/internals/decorator.py` docstring and the command modules). -/
structure Kwargs where
  help : Option String := none
  type : Option PyType := none
  required : Bool := false
  action : Option String := none
deriving DecidableEq, Repr

/-- One argument spec: either positional (`"name"` key) or flag-based
(`"flags"` key), as the dicts in the command modules. -/
inductive ArgSpec where
  | positional (name : String) (kwargs : Kwargs)
  | flag (flags : List String) (kwargs : Kwargs)
deriving DecidableEq, Repr

/-- The parsed-argument namespace (`argparse.Namespace`): attribute name
to value.  Embedded as an association list; `nsSet` overwrites. -/
def ArgNamespace := List (String × Value)
deriving DecidableEq, Repr

/-- Attribute lookup on a namespace (`getattr`). -/
def nsGet (ns : ArgNamespace) (k : String) : Option Value :=
  match ns with
  | [] => none
  | (k', v) :: rest => if k' = k then some v else nsGet rest k

/-- Attribute assignment on a namespace (`setattr`): overwrites in place,
appends when absent. -/
def nsSet (ns : ArgNamespace) (k : String) (v : Value) : ArgNamespace :=
  match ns with
  | [] => [(k, v)]
  | (k', v') :: rest => if k' = k then (k, v) :: rest else (k', v') :: nsSet rest k v

/-- Outcome of invoking a handler on a parsed namespace: normal return
(lines printed to standard output and the returned integer),
`KeyboardInterrupt`, or any other exception (lines printed before the
raise, and the exception's string rendering). -/
inductive HandlerOutcome where
  | ok (output : List String) (code : Int)
  | interrupt (output : List String)
  | fault (output : List String) (msg : String)

/-- A command handler: `(parsed args) -> outcome`. -/
def Func := ArgNamespace → HandlerOutcome

/-- One registry entry, the dict
`\x7b"func": func, "help": help, "arguments": arguments or []\x7d`
stored by `cli_command` in `src/internals/decorator.py`: exactly the
three keys `func`, `help` and `arguments`, the last always a list. -/
structure CommandMeta where
  func : Func
  help : String
  arguments : List ArgSpec

/-- `COMMAND_REGISTRY`: dict from command name to its metadata
(`src/internals/decorator.py`). -/
def Registry := List (String × CommandMeta)

/-- The empty registry, the module-level initializer
`COMMAND_REGISTRY = \x7b\x7d`. -/
def emptyRegistry : Registry := []

/-- Python dict assignment `d[k] = v`: overwrite in place when the key
exists, else append (CPython preserves the original position of an
overwritten key). -/
def pyInsert (reg : Registry) (k : String) (v : CommandMeta) : Registry :=
  match reg with
  | [] => [(k, v)]
  | (k', v') :: rest => if k' = k then (k, v) :: rest else (k', v') :: pyInsert rest k v

/-- Python dict lookup `d[k]` / `d.get(k)`. -/
def lookupReg (reg : Registry) (k : String) : Option CommandMeta :=
  match reg with
  | [] => none
  | (k', v) :: rest => if k' = k then some v else lookupReg rest k

/-- `COMMAND_REGISTRY.keys()` in insertion order. -/
def registryKeys (reg : Registry) : List String :=
  reg.map Prod.fst

/-- The `cli_command` decorator of `src/internals/decorator.py`: applied
to `func`, it stores
`\x7b"func": func, "help": help, "arguments": arguments or []\x7d`
under `name` and returns `func` itself.  The result pairs the updated
registry (the side effect on `COMMAND_REGISTRY`) with the decorator's
return value. -/
def cli_command (name : String) (help : String)
    (arguments : Option (List ArgSpec)) (func : Func) (reg : Registry) :
    Registry × Func :=
  (pyInsert reg name { func := func, help := help, arguments := arguments.getD [] }, func)

theorem lookupReg_pyInsert_self (reg : Registry) (k : String) (v : CommandMeta) :
    lookupReg (pyInsert reg k v) k = some v := by
  induction reg with
  | nil => simp [pyInsert, lookupReg]
  | cons hd tl ih =>
    obtain ⟨k', v'⟩ := hd
    by_cases h : k' = k
    · simp [pyInsert, lookupReg, h]
    · simp [pyInsert, lookupReg, h, ih]

/-- Modelled from the spec: `src/internals/config.py` is imported by
`src/cli.py` but is not under `src/`; per the spec it is "a configuration
module supplying these constants" — the static application metadata
strings (name, version, display name, description). -/
structure Config where
  APP_NAME : String
  APP_VERSION : String
  DISPLAY_NAME : String
  DESCRIPTION : String

/-- Python `str()` of a parsed value as an f-string renders it
(`str` verbatim, `int` in decimal with a leading minus when negative,
`bool` as `True`/`False`, `None` as `None`). -/
def pyStr (v : Value) : String :=
  match v with
  | .str s => s
  | .int n => toString n
  | .bool b => if b then "True" else "False"
  | .pyNone => "None"

/-- Python `str.upper()` over the ASCII strings this program builds. -/
def pyUpper (s : String) : String :=
  String.mk (s.data.map Char.toUpper)

/-- Python truthiness of a parsed value (used by `if args.excited:`). -/
def pyTruthy (v : Value) : Bool :=
  match v with
  | .str s => s ≠ ""
  | .int n => n ≠ 0
  | .bool b => b
  | .pyNone => false

/-- Decimal digits to their value; `none` when empty or a non-digit
occurs. -/
def digitsToNat (cs : List Char) : Option Nat :=
  if cs ≠ [] ∧ cs.all Char.isDigit then
    some (cs.foldl (fun a c => a * 10 + (c.toNat - 48)) 0)
  else none

/-- Strip leading and trailing whitespace from a character list (the
stripping Python `int(s)` performs on its argument). -/
def trimChars (cs : List Char) : List Char :=
  ((cs.dropWhile Char.isWhitespace).reverse.dropWhile Char.isWhitespace).reverse

/-- Python `int(s)` on a string: strips surrounding whitespace, accepts
an optional sign followed by decimal digits; `none` models the
`ValueError` that `argparse` turns into a usage error. -/
def pyInt (s : String) : Option Int :=
  match trimChars s.data with
  | '+' :: cs => (digitsToNat cs).map Int.ofNat
  | '-' :: cs => (digitsToNat cs).map (fun n => -(Int.ofNat n : Int))
  | cs => (digitsToNat cs).map Int.ofNat

/-- Apply an argument spec's `type` coercion (the default, like
`type=str`, is the identity on the token). -/
def coerceValue (t : Option PyType) (tok : String) : Option Value :=
  match t with
  | none => some (.str tok)
  | some .str => some (.str tok)
  | some .int => (pyInt tok).map Value.int

/-- Whether `argparse` treats a token as an option string: starts with
`-`, is not `-` alone, and is not a negative number (the parser has no
digit-like option strings, so negative numbers count as values). -/
def looksLikeOption (s : String) : Bool :=
  match s.data with
  | '-' :: rest => !rest.isEmpty && !rest.all Char.isDigit
  | _ => false

/-- `argparse` dest of a flag spec: the first long option string without
its `--` (dashes inside becoming underscores), else the first short
option without its `-`. -/
def flagDest (flags : List String) : String :=
  match flags.find? (fun s => ['-', '-'].isPrefixOf s.data) with
  | some long =>
    String.mk ((long.data.drop 2).map (fun c => if c = '-' then '_' else c))
  | none =>
    match flags with
    | f :: _ => String.mk (f.data.drop 1)
    | [] => ""

/-- The flag specs of a command, as `(option strings, kwargs)` pairs in
declaration order. -/
def flagSpecsOf (specs : List ArgSpec) : List (List String × Kwargs) :=
  specs.filterMap (fun s =>
    match s with
    | .flag fs kw => some (fs, kw)
    | .positional _ _ => none)

/-- The positional specs of a command, as `(name, kwargs)` pairs in
declaration order. -/
def positionalsOf (specs : List ArgSpec) : List (String × Kwargs) :=
  specs.filterMap (fun s =>
    match s with
    | .positional n kw => some (n, kw)
    | .flag _ _ => none)

/-- The dests of the required flags of a command (`required=True`). -/
def requiredDestsOf (specs : List ArgSpec) : List String :=
  specs.filterMap (fun s =>
    match s with
    | .flag fs kw => if kw.required then some (flagDest fs) else none
    | .positional _ _ => none)

/-- The namespace before any token is consumed: `dest="command"` holds
the matched subcommand name, `store_true` flags default to `False`, and
value flags default to `None` (the `argparse` defaults). -/
def initNs (cmd : String) (specs : List ArgSpec) : ArgNamespace :=
  specs.foldl
    (fun ns s =>
      match s with
      | .positional _ _ => ns
      | .flag fs kw =>
        nsSet ns (flagDest fs)
          (if kw.action = some "store_true" then .bool false else .pyNone))
    [("command", .str cmd)]

/-- Find the flag spec one of whose option strings is the token. -/
def findFlag (flagSpecs : List (List String × Kwargs)) (tok : String) :
    Option (List String × Kwargs) :=
  flagSpecs.find? (fun fs => fs.fst.contains tok)

/-- Result of parsing a subcommand's remaining tokens. -/
inductive SubOut where
  | ok (ns : ArgNamespace)
  | err
  | help
deriving DecidableEq, Repr

/-- The token-consumption loop of `argparse` for one subcommand, over the
fragment this program uses: `-h`/`--help` exits with the help text;
option-like tokens must match a declared flag (`store_true` sets its dest
to `True`, a value flag consumes the next non-option token, coerced);
other tokens fill the positional queue in order, coerced.  At the end,
unconsumed positionals or a required flag never seen are usage errors. -/
def parseLoop (flagSpecs : List (List String × Kwargs)) (reqd : List String)
    (tokens : List String) (posQ : List (String × Kwargs)) (ns : ArgNamespace)
    (seen : List String) : SubOut :=
  match tokens with
  | [] =>
    if !posQ.isEmpty then .err
    else if reqd.all (fun d => seen.contains d) then .ok ns
    else .err
  | tok :: rest =>
    if tok = "-h" ∨ tok = "--help" then .help
    else if looksLikeOption tok then
      match findFlag flagSpecs tok with
      | none => .err
      | some (fs, kw) =>
        let d := flagDest fs
        if kw.action = some "store_true" then
          parseLoop flagSpecs reqd rest posQ (nsSet ns d (.bool true)) (d :: seen)
        else
          match rest with
          | [] => .err
          | v :: rest2 =>
            if looksLikeOption v then .err
            else
              match coerceValue kw.type v with
              | none => .err
              | some val =>
                parseLoop flagSpecs reqd rest2 posQ (nsSet ns d val) (d :: seen)
    else
      match posQ with
      | [] => .err
      | (pname, pkw) :: posQ2 =>
        match coerceValue pkw.type tok with
        | none => .err
        | some val => parseLoop flagSpecs reqd rest posQ2 (nsSet ns pname val) seen
termination_by structural tokens

/-- Result of `parser.parse_args(argv)`: success with the matched command
and namespace; a usage error, on which `argparse` prints to the error
stream and raises `SystemExit(2)`; or a help request, on which it prints
the help text and raises `SystemExit(0)`. -/
inductive ParseResult where
  | ok (cmd : String) (ns : ArgNamespace)
  | usageError
  | helpExit
deriving DecidableEq, Repr

/-- The subcommand names the parser accepts: the built-in `status` plus
one per registry entry (`build_parser` in `src/cli.py`). -/
def commandChoices (reg : Registry) : List String :=
  "status" :: registryKeys reg

/-- The argument specs the subparser of `cmd` was built from: the
registry entry's list (a registered `status` replaces the built-in, which
has no arguments). -/
def subArgSpecs (reg : Registry) (cmd : String) : List ArgSpec :=
  match lookupReg reg cmd with
  | some meta => meta.arguments
  | none => []

/-- `parser.parse_args(argv)` for the parser `build_parser` constructs:
the first token must name a subcommand (the subparsers action has
`required=True`), then that subcommand's specs drive `parseLoop`. -/
def parseArgs (reg : Registry) (argv : List String) : ParseResult :=
  match argv with
  | [] => .usageError
  | cmd :: rest =>
    if cmd = "-h" ∨ cmd = "--help" then .helpExit
    else if looksLikeOption cmd then .usageError
    else if (commandChoices reg).contains cmd then
      let specs := subArgSpecs reg cmd
      match parseLoop (flagSpecsOf specs) (requiredDestsOf specs) rest
          (positionalsOf specs) (initNs cmd specs) [] with
      | .ok ns => .ok cmd ns
      | .err => .usageError
      | .help => .helpExit
    else .usageError


/-- `sorted(COMMAND_REGISTRY.keys())` (ascending lexicographic order on
strings, as Python `sorted`). -/
def sortedNames (reg : Registry) : List String :=
  List.insertionSort (fun a b => a ≤ b) (registryKeys reg)

/-- One hex digit, lowercase (as CPython's `\u` escapes). -/
def hexDigit (n : Nat) : Char :=
  if n < 10 then Char.ofNat (48 + n) else Char.ofNat (87 + n)

/-- Four lowercase hex digits. -/
def hex4 (n : Nat) : String :=
  String.mk [hexDigit (n / 4096 % 16), hexDigit (n / 256 % 16),
    hexDigit (n / 16 % 16), hexDigit (n % 16)]

/-- `json.dumps` escaping of one character with the default
`ensure_ascii=True`: quote and backslash escaped, the short escapes for
control characters, `\uXXXX` for other controls and for everything
outside printable ASCII (surrogate pairs beyond the BMP). -/
def jsonEscapeChar (c : Char) : String :=
  if c = '"' then "\\\""
  else if c = '\\' then "\\\\"
  else if c = '\n' then "\\n"
  else if c = '\t' then "\\t"
  else if c = '\r' then "\\r"
  else if c.toNat = 8 then "\\b"
  else if c.toNat = 12 then "\\f"
  else if c.toNat < 32 then "\\u" ++ hex4 c.toNat
  else if c.toNat < 127 then String.singleton c
  else if c.toNat < 65536 then "\\u" ++ hex4 c.toNat
  else
    "\\u" ++ hex4 (55296 + (c.toNat - 65536) / 1024) ++
    "\\u" ++ hex4 (56320 + (c.toNat - 65536) % 1024)

/-- A JSON string literal as `json.dumps` renders it. -/
def jsonString (s : String) : String :=
  "\"" ++ String.join (s.data.map jsonEscapeChar) ++ "\""

/-- A JSON array of strings as `json.dumps(..., indent=2)` renders it
when nested one level deep in an object: items indented four spaces,
the closing bracket two; an empty array stays inline. -/
def jsonStringList (names : List String) : String :=
  match names with
  | [] => "[]"
  | _ =>
    "[\n" ++ String.intercalate ",\n" (names.map (fun n => "    " ++ jsonString n)) ++
    "\n  ]"

/-- The exact standard-output line of `cmd_status` in `src/cli.py`:
`json.dumps(status, indent=2)` of the dict with keys `APP_NAME`,
`APP_VERSION`, `DISPLAY_NAME`, `DESCRIPTION`,
`COMMAND_REGISTRY` (the sorted registered names). -/
def statusJson (cfg : Config) (names : List String) : String :=
  "\x7b\n  \"APP_NAME\": " ++ jsonString cfg.APP_NAME ++
  ",\n  \"APP_VERSION\": " ++ jsonString cfg.APP_VERSION ++
  ",\n  \"DISPLAY_NAME\": " ++ jsonString cfg.DISPLAY_NAME ++
  ",\n  \"DESCRIPTION\": " ++ jsonString cfg.DESCRIPTION ++
  ",\n  \"COMMAND_REGISTRY\": " ++ jsonStringList names ++ "\n\x7d"

/-- `cmd_status` of `src/cli.py`: prints the JSON snapshot and returns 0,
ignoring its namespace argument. -/
def cmd_status (reg : Registry) (cfg : Config) : Func := fun _ =>
  .ok [statusJson cfg (sortedNames reg)] 0

/-- The handler `set_defaults(func=...)` bound to the matched subcommand:
the registry entry's `func`; the built-in `status` when `cmd` is not a
registered name (only reachable for `cmd = "status"`, the sole
non-registry choice `parseArgs` accepts). -/
def resolveFunc (reg : Registry) (cfg : Config) (cmd : String) : Func :=
  match lookupReg reg cmd with
  | some meta => meta.func
  | none => cmd_status reg cfg

/-- Everything observable about one process run: the lines printed to
standard output and to the error stream, whether a warning
(`logging...warning`) and whether a full diagnostic
(`logging...exception`) were logged, which command's handler was invoked
and with which namespace, and the process exit code. -/
structure RunResult where
  stdout : List String
  stderr : List String
  warned : Bool
  loggedError : Bool
  invoked : Option (String × ArgNamespace)
  exitCode : Int
deriving DecidableEq, Repr

/-- `cliMain` embeds `main` of `src/cli.py` followed by `sys.exit(main())`: parse (a
parse failure is `SystemExit(2)` raised by `argparse` before the `try`
block, a help request `SystemExit(0)`; neither invokes a handler), then
invoke the matched handler inside
`try/except KeyboardInterrupt/except Exception`: a normal return is the
exit code; `KeyboardInterrupt` logs a warning and returns 130; any other
exception is logged with full detail, summarized on the error stream as
an `Error:` line, and returns 1. -/
def cliMain (reg : Registry) (cfg : Config) (argv : List String) : RunResult :=
  match parseArgs reg argv with
  | .usageError =>
    { stdout := [], stderr := [], warned := false, loggedError := false,
      invoked := none, exitCode := 2 }
  | .helpExit =>
    { stdout := [], stderr := [], warned := false, loggedError := false,
      invoked := none, exitCode := 0 }
  | .ok cmd ns =>
    match resolveFunc reg cfg cmd ns with
    | .ok out code =>
      { stdout := out, stderr := [], warned := false, loggedError := false,
        invoked := some (cmd, ns), exitCode := code }
    | .interrupt out =>
      { stdout := out, stderr := [], warned := true, loggedError := false,
        invoked := some (cmd, ns), exitCode := 130 }
    | .fault out msg =>
      { stdout := out, stderr := ["❌ Error: " ++ msg], warned := false,
        loggedError := true, invoked := some (cmd, ns), exitCode := 1 }

/-- `greet_with_positional` of `src/commands/greet_with_positional.py`:
prints the greeting from `args.person` and `args.age` and returns 0.
A missing attribute models the `AttributeError` an f-string lookup on the
namespace would raise. -/
def greet_with_positional : Func := fun args =>
  match nsGet args "person", nsGet args "age" with
  | some p, some a =>
    .ok ["Hello, " ++ pyStr p ++ "! You are " ++ pyStr a ++ " years old!!!"] 0
  | _, _ => .fault [] "AttributeError"

/-- `greet_with_flags` of `src/commands/greet_with_flags.py`: builds the
greeting, uppercases it when `args.excited` is truthy, prints it and
returns 0. -/
def greet_with_flags : Func := fun args =>
  match nsGet args "person", nsGet args "age", nsGet args "excited" with
  | some p, some a, some e =>
    let message := "Hello, " ++ pyStr p ++ "! You are " ++ pyStr a ++ " years old!!!"
    let message := if pyTruthy e then pyUpper message else message
    .ok [message] 0
  | _, _, _ => .fault [] "AttributeError"

/-- `hello_world` of `src/commands/hello_world.py`. -/
def hello_world : Func := fun _ =>
  .ok ["Hello World!!!"] 0

/-- The `arguments` list of the `greet` registration
(`src/commands/greet_with_positional.py`). -/
def greetPositionalArgs : List ArgSpec :=
  [ .positional "person" { help := some "Person's name", type := some .str },
    .positional "age" { help := some "Age in years", type := some .int } ]

/-- The `arguments` list of the `greet-flags` registration
(`src/commands/greet_with_flags.py`). -/
def greetFlagsArgs : List ArgSpec :=
  [ .flag ["-p", "--person"]
      { help := some "Person's name", type := some .str, required := true },
    .flag ["-a", "--age"]
      { help := some "Age in years", type := some .int, required := true },
    .flag ["-e", "--excited"]
      { help := some "Make it all caps", action := some "store_true" } ]

/-- The registry after `import commands` has run every command module's
decorator (`src/cli.py` line `import commands`).  The package
initializer fixing the import order is not under `src/`; the order
modelled here is the alphabetical module order, and no claim below
depends on it: lookups and the sorted `status` listing are
order-independent. -/
def registryAfterImports : Registry :=
  (cli_command "hello" "Prints a hello world message." none hello_world
    (cli_command "greet"
      "Greets a \x7bperson\x7d with their \x7bage\x7d. (USAGE: `greet Bob 42`)"
      (some greetPositionalArgs) greet_with_positional
      (cli_command "greet-flags" "Greets a person using flags for name and age."
        (some greetFlagsArgs) greet_with_flags emptyRegistry).fst).fst).fst

/-- C1: for every registered command whose arguments parse successfully,
the dispatcher's run operation invokes the matched command's handler with
the parsed argument bag and returns the handler's returned integer,
unchanged, as the process exit code. -/
theorem dispatch_returns_handler_code (reg : Registry) (cfg : Config)
    (argv : List String) (cmd : String) (ns : ArgNamespace) (meta : CommandMeta)
    (out : List String) (code : Int)
    (hparse : parseArgs reg argv = .ok cmd ns)
    (hlook : lookupReg reg cmd = some meta)
    (hrun : meta.func ns = .ok out code) :
    cliMain reg cfg argv =
      { stdout := out, stderr := [], warned := false, loggedError := false,
        invoked := some (cmd, ns), exitCode := code } := by
  simp only [cliMain, resolveFunc, hparse, hlook, hrun]

theorem dispatch_returns_handler_code_witness :
    cliMain registryAfterImports ⟨"app", "0.1.0", "App", "A CLI."⟩ ["hello"] =
      { stdout := ["Hello World!!!"], stderr := [], warned := false,
        loggedError := false,
        invoked := some ("hello", [("command", Value.str "hello")]),
        exitCode := 0 } :=
  dispatch_returns_handler_code registryAfterImports ⟨"app", "0.1.0", "App", "A CLI."⟩
    ["hello"] "hello" [("command", Value.str "hello")]
    { func := hello_world, help := "Prints a hello world message.", arguments := [] }
    ["Hello World!!!"] 0 (by decide) rfl rfl

/-- C2: a handler invocation that raises `KeyboardInterrupt` is caught by
the dispatcher, a warning is logged, and the exit code is 130; the
interrupt never propagates past the dispatch boundary (`cliMain` is a
total function into `RunResult`). -/
theorem interrupt_exit_130 (reg : Registry) (cfg : Config)
    (argv : List String) (cmd : String) (ns : ArgNamespace) (meta : CommandMeta)
    (out : List String)
    (hparse : parseArgs reg argv = .ok cmd ns)
    (hlook : lookupReg reg cmd = some meta)
    (hrun : meta.func ns = .interrupt out) :
    cliMain reg cfg argv =
      { stdout := out, stderr := [], warned := true, loggedError := false,
        invoked := some (cmd, ns), exitCode := 130 } := by
  simp only [cliMain, resolveFunc, hparse, hlook, hrun]

theorem interrupt_exit_130_witness :
    cliMain (cli_command "boom" "Raises an interrupt."
        none (fun _ => .interrupt []) emptyRegistry).fst
      ⟨"app", "0.1.0", "App", "A CLI."⟩ ["boom"] =
      { stdout := [], stderr := [], warned := true, loggedError := false,
        invoked := some ("boom", [("command", Value.str "boom")]),
        exitCode := 130 } :=
  interrupt_exit_130
    (cli_command "boom" "Raises an interrupt." none (fun _ => .interrupt []) emptyRegistry).fst
    ⟨"app", "0.1.0", "App", "A CLI."⟩ ["boom"] "boom"
    [("command", Value.str "boom")]
    { func := fun _ => .interrupt [], help := "Raises an interrupt.", arguments := [] }
    [] (by decide) rfl rfl

/-- C3: a handler invocation that raises any fault other than a
user-interrupt is caught by the dispatcher, logged with full diagnostic
detail, summarized as a short error line on the error stream, and the
exit code is 1; the fault never escapes without this exit code (`cliMain`
is a total function into `RunResult`). -/
theorem fault_exit_1 (reg : Registry) (cfg : Config)
    (argv : List String) (cmd : String) (ns : ArgNamespace) (meta : CommandMeta)
    (out : List String) (msg : String)
    (hparse : parseArgs reg argv = .ok cmd ns)
    (hlook : lookupReg reg cmd = some meta)
    (hrun : meta.func ns = .fault out msg) :
    cliMain reg cfg argv =
      { stdout := out, stderr := ["❌ Error: " ++ msg], warned := false,
        loggedError := true, invoked := some (cmd, ns), exitCode := 1 } := by
  simp only [cliMain, resolveFunc, hparse, hlook, hrun]

theorem fault_exit_1_witness :
    cliMain (cli_command "kaboom" "Raises a fault."
        none (fun _ => .fault [] "boom") emptyRegistry).fst
      ⟨"app", "0.1.0", "App", "A CLI."⟩ ["kaboom"] =
      { stdout := [], stderr := ["❌ Error: boom"], warned := false,
        loggedError := true,
        invoked := some ("kaboom", [("command", Value.str "kaboom")]),
        exitCode := 1 } :=
  fault_exit_1
    (cli_command "kaboom" "Raises a fault." none (fun _ => .fault [] "boom") emptyRegistry).fst
    ⟨"app", "0.1.0", "App", "A CLI."⟩ ["kaboom"] "kaboom"
    [("command", Value.str "kaboom")]
    { func := fun _ => .fault [] "boom", help := "Raises a fault.", arguments := [] }
    [] "boom" (by decide) rfl rfl

/-- C4: after two registrations under the same name, the registry entry
for that name is exactly the later-registered spec, and the dispatcher
resolves that name to the later handler: the earlier one is no longer
reachable. -/
theorem duplicate_registration_last_wins (reg : Registry) (cfg : Config)
    (n h₁ h₂ : String) (a₁ a₂ : Option (List ArgSpec)) (f₁ f₂ : Func) :
    lookupReg (cli_command n h₂ a₂ f₂ (cli_command n h₁ a₁ f₁ reg).fst).fst n =
      some { func := f₂, help := h₂, arguments := a₂.getD [] } ∧
    resolveFunc (cli_command n h₂ a₂ f₂ (cli_command n h₁ a₁ f₁ reg).fst).fst cfg n = f₂ := by
  refine ⟨lookupReg_pyInsert_self _ _ _, ?_⟩
  simp only [resolveFunc, cli_command, lookupReg_pyInsert_self]

/-- C5: every argument sequence the parser rejects — an unregistered
command name, a missing required flag, and every other usage error —
terminates the process with exit code 2 through the parser's
`SystemExit(2)` path, and no handler is invoked. -/
theorem parse_failure_exit_2_no_handler (reg : Registry) (cfg : Config)
    (argv : List String) (hfail : parseArgs reg argv = .usageError) :
    cliMain reg cfg argv =
      { stdout := [], stderr := [], warned := false, loggedError := false,
        invoked := none, exitCode := 2 } := by
  simp only [cliMain, hfail]

theorem parse_failure_exit_2_no_handler_witness :
    cliMain registryAfterImports ⟨"app", "0.1.0", "App", "A CLI."⟩ ["frobnicate"] =
      { stdout := [], stderr := [], warned := false, loggedError := false,
        invoked := none, exitCode := 2 } ∧
    cliMain registryAfterImports ⟨"app", "0.1.0", "App", "A CLI."⟩ ["greet-flags"] =
      { stdout := [], stderr := [], warned := false, loggedError := false,
        invoked := none, exitCode := 2 } :=
  ⟨parse_failure_exit_2_no_handler registryAfterImports
      ⟨"app", "0.1.0", "App", "A CLI."⟩ ["frobnicate"] (by decide),
    parse_failure_exit_2_no_handler registryAfterImports
      ⟨"app", "0.1.0", "App", "A CLI."⟩ ["greet-flags"] (by decide)⟩

/-- C8: every registration made through the `cli_command` decorator
stores an entry whose shape is exactly the three fields `func`, `help`,
`arguments` (the `CommandMeta` record), and whose `arguments` field is
always a list: `arguments or []` stores the empty list when the
parameter is omitted (`none`), so parser construction never meets a
missing or `None` argument list for a decorator-registered command. -/
theorem decorator_entry_shape (reg : Registry) (n h : String)
    (a : Option (List ArgSpec)) (f : Func) :
    lookupReg (cli_command n h a f reg).fst n =
      some { func := f, help := h, arguments := a.getD [] } ∧
    lookupReg (cli_command n h none f reg).fst n =
      some { func := f, help := h, arguments := [] } ∧
    subArgSpecs (cli_command n h a f reg).fst n = a.getD [] := by
  refine ⟨lookupReg_pyInsert_self _ _ _, lookupReg_pyInsert_self _ _ _, ?_⟩
  simp only [subArgSpecs, cli_command, lookupReg_pyInsert_self]

/-- C9: applying the decorator returned by `cli_command` to a function
returns that function itself unchanged, and the registration's only
effect is the insertion of the entry into the registry mapping. -/
theorem decorator_returns_func_unchanged (reg : Registry) (n h : String)
    (a : Option (List ArgSpec)) (f : Func) :
    (cli_command n h a f reg).snd = f ∧
    (cli_command n h a f reg).fst =
      pyInsert reg n { func := f, help := h, arguments := a.getD [] } :=
  ⟨rfl, rfl⟩

/-- C6: for every registry state (no entry shadowing the built-in name
`status`, which the registration lifecycle never creates), invoking the
built-in `status` command prints the JSON key-value snapshot containing
the application name, version, display name, description, and the
alphabetically sorted list of registered command names, and returns exit
code 0; the printed name list is sorted and is a permutation of the
registered names. -/
theorem status_snapshot (reg : Registry) (cfg : Config)
    (hfree : lookupReg reg "status" = none) :
    cliMain reg cfg ["status"] =
      { stdout := [statusJson cfg (sortedNames reg)], stderr := [],
        warned := false, loggedError := false,
        invoked := some ("status", [("command", .str "status")]),
        exitCode := 0 } ∧
    List.Sorted (fun a b : String => a ≤ b) (sortedNames reg) ∧
    (sortedNames reg).Perm (registryKeys reg) := by
  refine ⟨?_, List.sorted_insertionSort _ _, List.perm_insertionSort _ _⟩
  simp only [cliMain, parseArgs, commandChoices, subArgSpecs, hfree, resolveFunc,
    cmd_status, flagSpecsOf, requiredDestsOf, positionalsOf, initNs, parseLoop,
    List.contains_cons, List.filterMap, List.foldl, List.isEmpty, List.all,
    show looksLikeOption "status" = false from rfl]
  simp [hfree, cmd_status]

theorem status_snapshot_witness :
    cliMain registryAfterImports ⟨"app", "0.1.0", "App", "A CLI."⟩ ["status"] =
      { stdout :=
          [statusJson ⟨"app", "0.1.0", "App", "A CLI."⟩
            (sortedNames registryAfterImports)],
        stderr := [], warned := false, loggedError := false,
        invoked := some ("status", [("command", Value.str "status")]),
        exitCode := 0 } ∧
    List.Sorted (fun a b : String => a ≤ b) (sortedNames registryAfterImports) ∧
    (sortedNames registryAfterImports).Perm (registryKeys registryAfterImports) :=
  status_snapshot registryAfterImports ⟨"app", "0.1.0", "App", "A CLI."⟩ rfl

/-- C7: invoking the dispatcher with `greet Bob 42` invokes exactly the
`greet` handler, with `person` the string `Bob` and `age` the integer
`42` in the parsed namespace, prints
`Hello, Bob! You are 42 years old!!!`, and yields exit code 0. -/
theorem greet_bob_42 (cfg : Config) :
    cliMain registryAfterImports cfg ["greet", "Bob", "42"] =
      { stdout := ["Hello, Bob! You are 42 years old!!!"], stderr := [],
        warned := false, loggedError := false,
        invoked := some ("greet",
          [("command", .str "greet"), ("person", .str "Bob"), ("age", .int 42)]),
        exitCode := 0 } ∧
    parseArgs registryAfterImports ["greet", "Bob", "42"] =
      .ok "greet" [("command", .str "greet"), ("person", .str "Bob"), ("age", .int 42)] :=
  ⟨rfl, by decide⟩

/-- C10: invoking `greet-flags` with its required `--person` and `--age`
values but without `--excited` parses `excited` to its default `False`,
and the handler prints the original, non-uppercased greeting and returns
exit code 0. -/
theorem greet_flags_default_not_excited (cfg : Config) (person ageTok : String)
    (n : Int)
    (hp : looksLikeOption person = false)
    (ha : looksLikeOption ageTok = false)
    (hn : pyInt ageTok = some n) :
    cliMain registryAfterImports cfg
        ["greet-flags", "--person", person, "--age", ageTok] =
      { stdout := ["Hello, " ++ person ++ "! You are " ++ toString n ++ " years old!!!"],
        stderr := [], warned := false, loggedError := false,
        invoked := some ("greet-flags",
          [("command", .str "greet-flags"), ("person", .str person),
           ("age", .int n), ("excited", .bool false)]),
        exitCode := 0 } := by
  have hparse : parseArgs registryAfterImports
      ["greet-flags", "--person", person, "--age", ageTok] =
      .ok "greet-flags"
        [("command", .str "greet-flags"), ("person", .str person),
         ("age", .int n), ("excited", .bool false)] := by
    simp only [parseArgs, commandChoices, registryAfterImports, cli_command,
      emptyRegistry, pyInsert, registryKeys, subArgSpecs, lookupReg,
      flagSpecsOf, requiredDestsOf, positionalsOf, initNs, parseLoop, findFlag,
      coerceValue, nsSet, hp, ha, hn,
      greetFlagsArgs,
      show looksLikeOption "greet-flags" = false from rfl,
      show looksLikeOption "--person" = true from rfl,
      show looksLikeOption "--age" = true from rfl,
      show flagDest ["-p", "--person"] = "person" from rfl,
      show flagDest ["-a", "--age"] = "age" from rfl,
      show flagDest ["-e", "--excited"] = "excited" from rfl]
    simp [show flagDest ["-p", "--person"] = "person" from rfl,
      show flagDest ["-a", "--age"] = "age" from rfl]
  simp only [cliMain, hparse]
  simp only [resolveFunc,
    show lookupReg registryAfterImports "greet-flags" =
      some { func := greet_with_flags,
             help := "Greets a person using flags for name and age.",
             arguments := greetFlagsArgs } from rfl]
  simp [greet_with_flags, nsGet, pyStr, pyTruthy]

theorem greet_flags_default_not_excited_witness :
    cliMain registryAfterImports ⟨"app", "0.1.0", "App", "A CLI."⟩
        ["greet-flags", "--person", "Ann", "--age", "30"] =
      { stdout := ["Hello, Ann! You are 30 years old!!!"],
        stderr := [], warned := false, loggedError := false,
        invoked := some ("greet-flags",
          [("command", Value.str "greet-flags"), ("person", Value.str "Ann"),
           ("age", Value.int 30), ("excited", Value.bool false)]),
        exitCode := 0 } :=
  greet_flags_default_not_excited ⟨"app", "0.1.0", "App", "A CLI."⟩
    "Ann" "30" 30 rfl rfl rfl
